import Mathlib

/-!
Verification of the analytics core of the F1 dashboard application.

The analytics layer of src/app.py is shallowly embedded here: Python strings
stay strings, dictionary fields that may be absent become Option String,
Python float arithmetic is modelled as exact rational (and, where a square
root is taken, real) arithmetic, and each analytics function becomes a Lean
function over the embedded data model.  Numeric parsing models the decimal
numeral forms produced by the upstream API (optional surrounding whitespace,
optional sign, digits, optional fractional part); exotic float syntax such
as exponents or inf/nan does not occur in the data and is out of model.
-/

namespace F1

/-- Numeric value of a decimal digit character. -/
def digitVal (c : Char) : Option Nat :=
  if c.isDigit then some (c.toNat - Char.toNat '0') else none

/-- Parse a nonempty list of decimal digits to a natural number; none on
empty input or on any non-digit character. -/
def parseDigits (cs : List Char) : Option Nat :=
  if cs = [] then none
  else
    cs.foldl
      (fun acc c =>
        match acc, digitVal c with
        | some n, some d => some (n * 10 + d)
        | _, _ => none)
      (some 0)

/-- Whitespace characters stripped by Python numeric conversion. -/
def isSpaceChar (c : Char) : Bool :=
  c = ' ' || c = '\t' || c = '\n' || c = '\r'

/-- Strip leading and trailing whitespace from a character list. -/
def trimChars (cs : List Char) : List Char :=
  ((cs.dropWhile isSpaceChar).reverse.dropWhile isSpaceChar).reverse

/-- Model of Python int(string): surrounding whitespace is ignored, an
optional sign precedes the digits. -/
def pyInt? (s : String) : Option Int :=
  match trimChars s.data with
  | '-' :: rest => (parseDigits rest).map (fun n => -(n : Int))
  | '+' :: rest => (parseDigits rest).map (fun n => (n : Int))
  | cs => (parseDigits cs).map (fun n => (n : Int))

/-- Model of Python float(string) on decimal numerals: optional sign,
integer part, optional fractional part after one dot; at least one digit
overall. -/
def pyFloat? (s : String) : Option ℚ :=
  let withSign : ℚ × List Char :=
    match trimChars s.data with
    | '-' :: rest => (-1, rest)
    | '+' :: rest => (1, rest)
    | cs => (1, cs)
  let sgn := withSign.1
  let cs := withSign.2
  let intPart := cs.takeWhile (fun c => c ≠ '.')
  match cs.dropWhile (fun c => c ≠ '.') with
  | [] => (parseDigits intPart).map (fun n => sgn * n)
  | _ :: frac =>
    if intPart = [] ∧ frac = [] then none
    else
      let ip := if intPart = [] then some 0 else parseDigits intPart
      let fp := if frac = [] then some 0 else parseDigits frac
      match ip, fp with
      | some n, some f => some (sgn * ((n : ℚ) + (f : ℚ) / 10 ^ frac.length))
      | _, _ => none

/-- Body of safe_int on an actual string value: the DNF markers R and W
give no integer, anything else is parsed by int(). -/
def safe_int_of_str (s : String) : Option Int :=
  if s = "R" ∨ s = "W" then none else pyInt? s

/-- safe_int with default None (src/app.py safe_int): a missing value
(Python None) raises TypeError inside int() and yields the default. -/
def safe_int? (v : Option String) : Option Int :=
  v.bind safe_int_of_str

/-- safe_int with an integer default (src/app.py safe_int). -/
def safe_int (v : Option String) (default : Int) : Int :=
  (safe_int? v).getD default

/-- safe_float (src/app.py): float() with a default on failure; a missing
value (Python None) raises TypeError and yields the default. -/
def safe_float (v : Option String) (default : ℚ) : ℚ :=
  match v with
  | none => default
  | some s => (pyFloat? s).getD default

/-- safe_divide (src/app.py): default when the denominator is zero. -/
def safe_divide (numerator denominator default : ℚ) : ℚ :=
  if denominator = 0 then default else numerator / denominator

/-- The fixed list of DNF causes of is_dnf (src/app.py). -/
def dnf_statuses : List String :=
  ["Accident", "Engine", "Gearbox", "Transmission", "Clutch",
   "Hydraulics", "Electrical", "Collision", "Spun off", "Retired",
   "Mechanical", "Brakes", "Suspension", "Fuel pressure", "Overheating"]

/-- is_dnf (src/app.py): membership in the fixed cause list, or a status
beginning with the lapped-finish marker + (the startswith test on a
one-character argument is modelled on the character list). -/
def is_dnf (status : String) : Bool :=
  dnf_statuses.contains status ||
    (match status.data with
     | c :: _ => c = '+'
     | [] => false)

/-- Round-half-even on rationals, the tie-breaking rule of Python round. -/
def roundHalfEvenQ (q : ℚ) : ℤ :=
  if q - ⌊q⌋ < 1 / 2 then ⌊q⌋
  else if 1 / 2 < q - ⌊q⌋ then ⌊q⌋ + 1
  else if ⌊q⌋ % 2 = 0 then ⌊q⌋ else ⌊q⌋ + 1

/-- Model of Python round(x, n) on rationals. -/
def pyRound (q : ℚ) (n : ℕ) : ℚ :=
  (roundHalfEvenQ (q * 10 ^ n) : ℚ) / 10 ^ n

open Classical in
/-- Round-half-even on reals, for values produced through square roots. -/
noncomputable def roundHalfEvenR (x : ℝ) : ℤ :=
  if x - ⌊x⌋ < 1 / 2 then ⌊x⌋
  else if 1 / 2 < x - ⌊x⌋ then ⌊x⌋ + 1
  else if ⌊x⌋ % 2 = 0 then ⌊x⌋ else ⌊x⌋ + 1

/-- Model of Python round(x, n) on reals. -/
noncomputable def pyRoundR (x : ℝ) (n : ℕ) : ℝ :=
  (roundHalfEvenR (x * 10 ^ n) : ℝ) / 10 ^ n

/-- Population mean of an integer list, as numpy mean (exact model). -/
def listMean (xs : List Int) : ℚ :=
  (xs.map (fun x => (x : ℚ))).sum / xs.length

/-- Population variance of an integer list, as the square of numpy std
(exact model). -/
def listVar (xs : List Int) : ℚ :=
  ((xs.map (fun x => ((x : ℚ) - listMean xs) ^ 2)).sum) / xs.length

/-- Population standard deviation, as numpy std (exact model). -/
noncomputable def listStd (xs : List Int) : ℝ :=
  Real.sqrt ((listVar xs : ℚ) : ℝ)

/-- Population covariance of two integer lists, paired positionally. -/
def listCov (xs ys : List Int) : ℚ :=
  (((xs.zip ys).map
      (fun p => ((p.1 : ℚ) - listMean xs) * ((p.2 : ℚ) - listMean ys))).sum)
    / xs.length

/-- Pearson correlation coefficient, the exact value computed by
numpy corrcoef on the two lists. -/
noncomputable def pearson (xs ys : List Int) : ℝ :=
  ((listCov xs ys : ℚ) : ℝ) / (listStd xs * listStd ys)

open Classical in
/-- safe_correlation (src/app.py): length guards, zero-variance guard,
then the Pearson coefficient. -/
noncomputable def safe_correlation (x y : List Int) : Option ℝ :=
  if x.length < 2 ∨ y.length < 2 then none
  else if x.length ≠ y.length then none
  else if listStd x = 0 ∨ listStd y = 0 then none
  else some (pearson x y)

/-- Exact slope of the degree-one least-squares fit computed by numpy
polyfit of ys against indices 0, 1, 2, .... -/
def olsSlope (ys : List Int) : ℚ :=
  let m : ℚ := ys.length
  let xs : List ℚ := (List.range ys.length).map (fun i => (i : ℚ))
  let yq : List ℚ := ys.map (fun y => (y : ℚ))
  let sx := xs.sum
  let sy := yq.sum
  let sxy := ((xs.zip yq).map (fun p => p.1 * p.2)).sum
  let sxx := (xs.map (fun x => x ^ 2)).sum
  (m * sxy - sx * sy) / (m * sxx - sx ^ 2)

/-- One competitor result entry, as the dictionaries delivered by the API:
a field whose key may be absent is an Option. -/
structure RaceEntry where
  position : Option String := none
  points : Option String := none
  grid : Option String := none
  status : Option String := none
deriving Repr, DecidableEq, Inhabited

/-- One race record: name, date, round and the Results list. -/
structure Race where
  raceName : Option String := none
  date : Option String := none
  round : Option String := none
  results : List RaceEntry := []
deriving Repr, DecidableEq, Inhabited

/-- Python truthiness of an optional string: None and the empty string are
falsy. -/
def truthy (v : Option String) : Bool :=
  match v with
  | none => false
  | some s => s ≠ ""

/-- The round number carried by a trend point:
safe_int(race.get(round, 0)). -/
def raceRound (race : Race) : Int :=
  match race.round with
  | none => 0
  | some s => (safe_int_of_str s).getD 0

/-- One point of the trend series (the four DataFrame columns). -/
structure TrendPoint where
  race_name : String
  race_date : String
  round : Int
  metric_value : Option ℚ
deriving Repr, DecidableEq

/-- The metric value of a result entry: for the position metric,
safe_int(result.get(position, R), default=None); otherwise
safe_float(result.get(points, 0), default=0.0). -/
def metricValue (metric : String) (result : RaceEntry) : Option ℚ :=
  if metric = "position" then
    (safe_int_of_str (result.position.getD "R")).map (fun p => (p : ℚ))
  else
    some (safe_float (some (result.points.getD "0")) 0)

/-- The loop body of calculate_analytics_performance_trends: a race with an
empty Results list contributes nothing, otherwise one point is built from
the first result entry. -/
def trendPoint? (metric : String) (race : Race) : Option TrendPoint :=
  race.results.head?.map
    (fun result =>
      { race_name := race.raceName.getD "Unknown"
        race_date := race.date.getD ""
        round := raceRound race
        metric_value := metricValue metric result })

/-- calculate_analytics_performance_trends (src/app.py). -/
def calculate_analytics_performance_trends
    (race_results : List Race) (metric : String) : List TrendPoint :=
  if race_results = [] then []
  else race_results.filterMap (trendPoint? metric)

/-- The loop body of calculate_analytics_consistency_score: position of the
first result entry when the race counts as completed. -/
def completedPosition? (race : Race) : Option Int :=
  match race.results.head? with
  | none => none
  | some result =>
    let status := result.status.getD ""
    let position := result.position.getD "R"
    if ¬ is_dnf status ∧ position ≠ "R" then
      match safe_int_of_str position with
      | some p => if 0 < p then some p else none
      | none => none
    else none

/-- The finishing positions of completed races, in input order. -/
def completedPositions (race_results : List Race) : List Int :=
  race_results.filterMap completedPosition?

/-- Result record of the consistency scorer. -/
structure ConsistencyMetrics where
  consistency_score : ℝ
  std_dev : ℝ
  avg_position : ℚ
  completed_races : ℕ
  total_races : ℕ

/-- calculate_analytics_consistency_score (src/app.py). -/
noncomputable def calculate_analytics_consistency_score
    (race_results : List Race) (min_races : ℕ) : Option ConsistencyMetrics :=
  if race_results = [] then none
  else if (completedPositions race_results).length < min_races then none
  else
    some
      { consistency_score :=
          pyRoundR (max 0 (100 - listStd (completedPositions race_results) * 10)) 1
        std_dev := pyRoundR (listStd (completedPositions race_results)) 2
        avg_position := pyRound (listMean (completedPositions race_results)) 2
        completed_races := (completedPositions race_results).length
        total_races := race_results.length }

/-- The cause strings grouped as Mechanical by the reliability analyzer. -/
def mechanicalCauses : List String :=
  ["Engine", "Gearbox", "Transmission", "Clutch",
   "Hydraulics", "Electrical", "Mechanical", "Brakes",
   "Suspension", "Fuel pressure", "Overheating"]

/-- The cause strings grouped as Accident by the reliability analyzer. -/
def accidentCauses : List String :=
  ["Accident", "Collision", "Spun off"]

/-- Whether the first result entry of a race has a DNF status (with the
default status Finished when the key is absent). -/
def raceIsDnf (race : Race) : Bool :=
  match race.results.head? with
  | none => false
  | some result => is_dnf (result.status.getD "Finished")

/-- The loop body of calculate_analytics_dnf_rate: the cause bucket of a
DNF race, none when the race has no results or did finish. -/
def raceDnfCause? (race : Race) : Option String :=
  match race.results.head? with
  | none => none
  | some result =>
    let status := result.status.getD "Finished"
    if is_dnf status then
      some
        (if mechanicalCauses.contains status then "Mechanical"
         else if accidentCauses.contains status then "Accident"
         else "Other")
    else none

/-- One update of the Python dict dnf_causes: dnf_causes[cause] =
dnf_causes.get(cause, 0) + 1, on the association-list model of a dict
(keys are unique, new keys are appended). -/
def dictBump : List (String × ℕ) → String → List (String × ℕ)
  | [], k => [(k, 1)]
  | (k0, v) :: rest, k =>
    if k0 = k then (k0, v + 1) :: rest else (k0, v) :: dictBump rest k

/-- Result record of the reliability analyzer. -/
structure DnfReport where
  dnf_percentage : ℚ
  dnf_count : ℕ
  total_races : ℕ
  dnf_causes : List (String × ℕ)
deriving Repr, DecidableEq

/-- calculate_analytics_dnf_rate (src/app.py). -/
def calculate_analytics_dnf_rate (race_results : List Race) : DnfReport :=
  if race_results = [] then
    { dnf_percentage := 0, dnf_count := 0, total_races := 0, dnf_causes := [] }
  else
    { dnf_percentage :=
        pyRound
          (safe_divide (((race_results.filterMap raceDnfCause?).length : ℚ) * 100)
            race_results.length 0) 1
      dnf_count := (race_results.filterMap raceDnfCause?).length
      total_races := race_results.length
      dnf_causes := (race_results.filterMap raceDnfCause?).foldl dictBump [] }

/-- The loop body of calculate_analytics_points_per_race: the parsed points
of a race that is counted, none when the race is skipped. -/
def pprConsidered (exclude_dnf : Bool) (race : Race) : Option ℚ :=
  match race.results.head? with
  | none => none
  | some result =>
    let status := result.status.getD "Finished"
    let points := safe_float (some (result.points.getD "0")) 0
    if exclude_dnf && is_dnf status then none else some points

/-- The parsed points of the first result entry (0 when absent). -/
def racePoints (race : Race) : ℚ :=
  match race.results.head? with
  | none => 0
  | some result => safe_float (some (result.points.getD "0")) 0

/-- Result record of the scoring aggregator. -/
structure PointsSummary where
  points_per_race : ℚ
  total_points : ℚ
  races_counted : ℕ
deriving Repr, DecidableEq

/-- calculate_analytics_points_per_race (src/app.py). -/
def calculate_analytics_points_per_race
    (race_results : List Race) (exclude_dnf : Bool) : PointsSummary :=
  if race_results = [] then
    { points_per_race := 0, total_points := 0, races_counted := 0 }
  else
    { points_per_race :=
        pyRound
          (safe_divide (race_results.filterMap (pprConsidered exclude_dnf)).sum
            (race_results.filterMap (pprConsidered exclude_dnf)).length 0) 2
      total_points := pyRound (race_results.filterMap (pprConsidered exclude_dnf)).sum 1
      races_counted := (race_results.filterMap (pprConsidered exclude_dnf)).length }

/-- One point of the correlation scatter data. -/
structure ScatterPoint where
  grid : Int
  finish : Int
  race_name : String
deriving Repr, DecidableEq

/-- How one race is treated by the correlation loop: skipped silently,
counted as missing data, or kept as a valid data point. -/
inductive QRCOutcome
  | skip
  | missing
  | valid (point : ScatterPoint)
deriving Repr, DecidableEq

/-- The loop body of calculate_analytics_qualifying_race_correlation:
grid = result.get(grid, None), position = result.get(position, None),
status = result.get(status, Finished); a falsy grid or position, or a DNF
status, leads to the first continue (counting missing data only for falsy
grid or position); otherwise both values are parsed and, on success, a
scatter point is kept. -/
def qrcClassify (race : Race) : QRCOutcome :=
  match race.results.head? with
  | none => .skip
  | some result =>
    let grid := result.grid
    let position := result.position
    let status := result.status.getD "Finished"
    if !truthy grid || !truthy position || is_dnf status then
      if !truthy grid || !truthy position then .missing else .skip
    else
      match safe_int? grid, safe_int? position with
      | some g, some p =>
        .valid { grid := g, finish := p, race_name := race.raceName.getD "Unknown" }
      | _, _ => .missing

/-- The scatter points kept by the correlation loop, in input order. -/
def qrcScatter (race_results : List Race) : List ScatterPoint :=
  race_results.filterMap
    (fun race =>
      match qrcClassify race with
      | .valid pt => some pt
      | _ => none)

/-- The missing-data counter of the correlation loop. -/
def qrcMissingCount (race_results : List Race) : ℕ :=
  race_results.countP
    (fun race =>
      match qrcClassify race with
      | .missing => true
      | _ => false)

/-- The per-race finish-minus-grid changes of the kept scatter points. -/
def qrcChanges (race_results : List Race) : List ℚ :=
  (qrcScatter race_results).map (fun pt => ((pt.finish - pt.grid : ℤ) : ℚ))

/-- Average position change of the correlation analyzer: mean of the
changes, or 0.0 for an empty list (the Python conditional expression). -/
def qrcAvgChange (race_results : List Race) : ℚ :=
  if qrcChanges race_results = [] then 0
  else (qrcChanges race_results).sum / (qrcChanges race_results).length

/-- Result record of the correlation analyzer. -/
structure CorrelationResult where
  correlation_coefficient : Option ℝ
  avg_position_change : ℚ
  classification : String
  scatter_data : List ScatterPoint
  races_analyzed : ℕ
  missing_data_count : ℕ
  insufficient_data : Bool

open Classical in
/-- The classification of the correlation analyzer as a function of the
optional coefficient (the if/elif chain of src/app.py). -/
noncomputable def qrcClassification (correlation : Option ℝ) : String :=
  match correlation with
  | none => "insufficient data"
  | some c =>
    if c < -(0.3 : ℝ) then "strong race performer"
    else if (0.7 : ℝ) < c then "qualifying-dependent performer"
    else "balanced performer"

/-- calculate_analytics_qualifying_race_correlation (src/app.py). -/
noncomputable def calculate_analytics_qualifying_race_correlation
    (race_results : List Race) (min_races : ℕ) : Option CorrelationResult :=
  if race_results = [] then none
  else if ((qrcScatter race_results).map ScatterPoint.grid).length < min_races then
    some
      { correlation_coefficient := none
        avg_position_change := 0
        classification := "insufficient data"
        scatter_data := qrcScatter race_results
        races_analyzed := ((qrcScatter race_results).map ScatterPoint.grid).length
        missing_data_count := qrcMissingCount race_results
        insufficient_data := true }
  else
    some
      { correlation_coefficient :=
          (safe_correlation ((qrcScatter race_results).map ScatterPoint.grid)
              ((qrcScatter race_results).map ScatterPoint.finish)).map
            (fun c => pyRoundR c 3)
        avg_position_change := pyRound (qrcAvgChange race_results) 2
        classification :=
          qrcClassification
            (safe_correlation ((qrcScatter race_results).map ScatterPoint.grid)
              ((qrcScatter race_results).map ScatterPoint.finish))
        scatter_data := qrcScatter race_results
        races_analyzed := ((qrcScatter race_results).map ScatterPoint.grid).length
        missing_data_count := qrcMissingCount race_results
        insufficient_data := false }

/-- The loop body of calculate_analytics_form_indicator: a race kept for
position analysis yields its parsed position and parsed points. -/
def formKept? (race : Race) : Option (Int × ℚ) :=
  match race.results.head? with
  | none => none
  | some result =>
    let position := result.position
    let points := safe_float (some (result.points.getD "0")) 0
    let status := result.status.getD "Finished"
    if truthy position && !is_dnf status then
      match safe_int? position with
      | some p => some (p, points)
      | none => none
    else none

/-- The kept (position, points) pairs of the most recent n races. -/
def formKept (race_results : List Race) (n_races : ℕ) : List (Int × ℚ) :=
  (race_results.take n_races).filterMap formKept?

/-- The trend slope of the form indicator: the least-squares slope when at
least two positions were kept, else 0. -/
def formSlope (race_results : List Race) (n_races : ℕ) : ℚ :=
  let positions := (formKept race_results n_races).map Prod.fst
  if 2 ≤ positions.length then olsSlope positions else 0

/-- Result record of the form indicator. -/
structure FormIndicator where
  avg_position : ℚ
  total_points : ℚ
  trend_direction : String
  trend_slope : ℚ
  races_analyzed : ℕ
deriving Repr, DecidableEq

/-- The trend direction of the form indicator: the branch on the number of
positions and the slope thresholds of src/app.py. -/
def formDirection (race_results : List Race) (n_races : ℕ) : String :=
  if 2 ≤ ((formKept race_results n_races).map Prod.fst).length then
    if |formSlope race_results n_races| < 3 / 10 then "stable"
    else if formSlope race_results n_races < 0 then "improving"
    else "declining"
  else "stable"

/-- calculate_analytics_form_indicator (src/app.py). -/
def calculate_analytics_form_indicator
    (race_results : List Race) (n_races : ℕ) : Option FormIndicator :=
  if race_results = [] then none
  else if (formKept race_results n_races).map Prod.fst = [] then none
  else
    some
      { avg_position :=
          pyRound
            ((((formKept race_results n_races).map Prod.fst).map (fun p => (p : ℚ))).sum /
              ((formKept race_results n_races).map Prod.fst).length) 2
        total_points := pyRound (((formKept race_results n_races).map Prod.snd).sum) 1
        trend_direction := formDirection race_results n_races
        trend_slope := pyRound (formSlope race_results n_races) 3
        races_analyzed := (formKept race_results n_races).length }

/-- The completed-race filter exactly as the specification words it for
the consistency scorer: the literal status Finished and a position parsing
to a positive integer.  Stated from the spec, to be compared with the
source-derived completedPosition?. -/
def specC2completedPosition? (race : Race) : Option Int :=
  match race.results.head? with
  | none => none
  | some result =>
    if result.status.getD "" = "Finished" then
      match safe_int_of_str (result.position.getD "R") with
      | some p => if 0 < p then some p else none
      | none => none
    else none

/-- The valid-data-point condition exactly as the specification words it
for the correlation analyzer: grid and position present, both parsing to
positive integers, and a non-DNF status.  Stated from the spec, to be
compared with the source-derived qrcClassify. -/
def specC3valid (race : Race) : Bool :=
  match race.results.head? with
  | none => false
  | some result =>
    truthy result.grid && truthy result.position &&
    (match safe_int? result.grid, safe_int? result.position with
     | some g, some p => decide (0 < g) && decide (0 < p)
     | _, _ => false) &&
    !is_dnf (result.status.getD "Finished")

/-- A race whose only result entry is a scored lapped-style DNF: status
Engine with one point.  Used to separate total points with and without
excludeDnf. -/
def dnfScoringRaces : List Race :=
  [{ raceName := some "A",
     results := [{ position := some "2", points := some "1", status := some "Engine" }] }]

/-- The six-race fixture of the specification scenario: points
25, 18, 25, 0, 15, 18 with one zero-point Engine DNF in round 4. -/
def zeroPointDnfRaces : List Race :=
  [{ raceName := some "R1", round := some "1",
     results := [{ position := some "1", points := some "25", status := some "Finished" }] },
   { raceName := some "R2", round := some "2",
     results := [{ position := some "2", points := some "18", status := some "Finished" }] },
   { raceName := some "R3", round := some "3",
     results := [{ position := some "1", points := some "25", status := some "Finished" }] },
   { raceName := some "R4", round := some "4",
     results := [{ position := some "18", points := some "0", status := some "Engine" }] },
   { raceName := some "R5", round := some "5",
     results := [{ position := some "3", points := some "15", status := some "Finished" }] },
   { raceName := some "R6", round := some "6",
     results := [{ position := some "2", points := some "18", status := some "Finished" }] }]

/-- A race classified (position 5) with the non-DNF status Lapped: the
consistency scorer includes it although its status is not Finished. -/
def lappedRace : Race :=
  { raceName := some "L",
    results := [{ position := some "5", points := some "10", status := some "Lapped" }] }

/-- A race with grid 0 (pit-lane start), a valid position and status
Finished: the correlation analyzer keeps it although 0 is not positive. -/
def pitLaneRace : Race :=
  { raceName := some "P",
    results := [{ position := some "5", points := some "10", grid := some "0",
                  status := some "Finished" }] }

/-- Two well-formed races, each with one result entry. -/
def twoPlainRaces : List Race :=
  [{ raceName := some "T1", date := some "2024-03-02", round := some "1",
     results := [{ position := some "3", points := some "15", grid := some "4",
                   status := some "Finished" }] },
   { raceName := some "T2", date := some "2024-03-09", round := some "2",
     results := [{ position := some "7", points := some "6", grid := some "5",
                   status := some "+1 Lap" }] }]

/-- Five finished races whose grid is always 3: the grid series has zero
variance while five valid points are available. -/
def constantGridRaces : List Race :=
  [{ raceName := some "G1",
     results := [{ position := some "1", grid := some "3", status := some "Finished" }] },
   { raceName := some "G2",
     results := [{ position := some "2", grid := some "3", status := some "Finished" }] },
   { raceName := some "G3",
     results := [{ position := some "3", grid := some "3", status := some "Finished" }] },
   { raceName := some "G4",
     results := [{ position := some "4", grid := some "3", status := some "Finished" }] },
   { raceName := some "G5",
     results := [{ position := some "5", grid := some "3", status := some "Finished" }] }]

/-- A single race with full data, far fewer than the default minimum. -/
def singleValidRace : List Race :=
  [{ raceName := some "S",
     results := [{ position := some "2", grid := some "6", status := some "Finished" }] }]

/-- Seven races with identical finishing position 3 (the zero-deviation
specification scenario). -/
def identicalPositionRaces : List Race :=
  [{ raceName := some "I1",
     results := [{ position := some "3", status := some "Finished" }] },
   { raceName := some "I2",
     results := [{ position := some "3", status := some "Finished" }] },
   { raceName := some "I3",
     results := [{ position := some "3", status := some "Finished" }] },
   { raceName := some "I4",
     results := [{ position := some "3", status := some "Finished" }] },
   { raceName := some "I5",
     results := [{ position := some "3", status := some "Finished" }] },
   { raceName := some "I6",
     results := [{ position := some "3", status := some "Finished" }] },
   { raceName := some "I7",
     results := [{ position := some "3", status := some "Finished" }] }]

/-- Five races with positions 6, 5, 4, 3, 2, oldest first in the window
(the improving-form specification scenario). -/
def improvingFormRaces : List Race :=
  [{ raceName := some "F1r",
     results := [{ position := some "6", points := some "8", status := some "Finished" }] },
   { raceName := some "F2r",
     results := [{ position := some "5", points := some "10", status := some "Finished" }] },
   { raceName := some "F3r",
     results := [{ position := some "4", points := some "12", status := some "Finished" }] },
   { raceName := some "F4r",
     results := [{ position := some "3", points := some "15", status := some "Finished" }] },
   { raceName := some "F5r",
     results := [{ position := some "2", points := some "18", status := some "Finished" }] }]

/-- The expected form-indicator record for improvingFormRaces. -/
def improvingFormResult : FormIndicator :=
  { avg_position := 4, total_points := 63, trend_direction := "improving",
    trend_slope := -1, races_analyzed := 5 }

/-- One Engine DNF and one finished race. -/
def oneDnfOneFinishRaces : List Race :=
  [{ raceName := some "D1",
     results := [{ position := some "18", points := some "0", status := some "Engine" }] },
   { raceName := some "D2",
     results := [{ position := some "1", points := some "25", status := some "Finished" }] }]

/-- A race whose Results list is empty, next to an ordinary race. -/
def emptyResultsRace : Race :=
  { raceName := some "E", date := some "2024-05-05", round := some "7", results := [] }

/-- Input mixing a race with an empty Results list and a normal race. -/
def mixedEmptyRaces : List Race :=
  [emptyResultsRace,
   { raceName := some "N", round := some "8",
     results := [{ position := some "4", points := some "12", status := some "Finished" }] }]

/-! Helper lemmas. -/

lemma roundHalfEvenR_intCast (n : ℤ) : roundHalfEvenR (n : ℝ) = n := by
  unfold roundHalfEvenR
  rw [Int.floor_intCast]
  have h : (n : ℝ) - (n : ℝ) < 1 / 2 := by norm_num
  rw [if_pos h]

lemma roundHalfEvenR_nonneg {x : ℝ} (h : 0 ≤ x) : 0 ≤ roundHalfEvenR x := by
  unfold roundHalfEvenR
  have hf : 0 ≤ ⌊x⌋ := Int.floor_nonneg.mpr h
  split_ifs <;> omega

lemma roundHalfEvenR_le {x : ℝ} {B : ℤ} (h : x ≤ B) : roundHalfEvenR x ≤ B := by
  have hfB : ⌊x⌋ ≤ B := by
    have := Int.floor_le_floor h
    simpa using this
  have key : ¬ (x - ⌊x⌋ < 1 / 2) → ⌊x⌋ + 1 ≤ B := by
    intro hd
    rcases lt_or_eq_of_le hfB with hlt | heq
    · omega
    · exfalso
      apply hd
      have hc : ((⌊x⌋ : ℝ)) = (B : ℝ) := by exact_mod_cast heq
      have : x - (⌊x⌋ : ℝ) ≤ 0 := by rw [hc]; linarith
      linarith
  unfold roundHalfEvenR
  split_ifs with h1 h2 h3
  · exact hfB
  · exact key h1
  · exact hfB
  · exact key h1

lemma pyRoundR_intCast (n : ℤ) (k : ℕ) : pyRoundR (n : ℝ) k = n := by
  unfold pyRoundR
  have hx : (n : ℝ) * 10 ^ k = ((n * 10 ^ k : ℤ) : ℝ) := by push_cast; ring
  rw [hx, roundHalfEvenR_intCast]
  have hp : ((10 : ℝ) ^ k) ≠ 0 := by positivity
  push_cast
  field_simp

lemma pyRoundR_nonneg {x : ℝ} (h : 0 ≤ x) (k : ℕ) : 0 ≤ pyRoundR x k := by
  unfold pyRoundR
  have h1 : (0 : ℝ) ≤ (roundHalfEvenR (x * 10 ^ k) : ℝ) := by
    exact_mod_cast roundHalfEvenR_nonneg (by positivity)
  positivity

lemma pyRoundR_le {x : ℝ} {B : ℤ} (h : x ≤ B) (k : ℕ) : pyRoundR x k ≤ B := by
  unfold pyRoundR
  have hx : x * 10 ^ k ≤ ((B * 10 ^ k : ℤ) : ℝ) := by
    push_cast
    have hp : (0 : ℝ) < 10 ^ k := by positivity
    nlinarith
  have h1 : roundHalfEvenR (x * 10 ^ k) ≤ B * 10 ^ k := roundHalfEvenR_le hx
  have h2 : ((roundHalfEvenR (x * 10 ^ k) : ℝ)) ≤ ((B * 10 ^ k : ℤ) : ℝ) := by
    exact_mod_cast h1
  have hp : (0 : ℝ) < 10 ^ k := by positivity
  rw [div_le_iff₀ hp]
  push_cast at h2 ⊢
  linarith

lemma listVar_nonneg (xs : List Int) : 0 ≤ listVar xs := by
  unfold listVar
  apply div_nonneg
  · apply List.sum_nonneg
    intro q hq
    obtain ⟨a, _, rfl⟩ := List.mem_map.mp hq
    positivity
  · positivity

lemma listStd_nonneg (xs : List Int) : 0 ≤ listStd xs := Real.sqrt_nonneg _

lemma listStd_eq_zero_iff (xs : List Int) : listStd xs = 0 ↔ listVar xs = 0 := by
  unfold listStd
  rw [Real.sqrt_eq_zero (by exact_mod_cast listVar_nonneg xs)]
  exact_mod_cast Iff.rfl

lemma listVar_of_short (xs : List Int) (h : xs.length ≤ 1) : listVar xs = 0 := by
  match xs with
  | [] => simp [listVar]
  | [x] =>
    simp [listVar, listMean]
  | x :: y :: rest => simp at h

lemma two_le_of_listVar_ne_zero {xs : List Int} (h : listVar xs ≠ 0) :
    2 ≤ xs.length := by
  by_contra hc
  exact h (listVar_of_short xs (by omega))

lemma length_filterMap_eq_countP {α β : Type} (f : α → Option β) (l : List α) :
    (l.filterMap f).length = l.countP (fun a => (f a).isSome) := by
  induction l with
  | nil => rfl
  | cons a l ih =>
    rw [List.filterMap_cons, List.countP_cons]
    cases hf : f a with
    | none => simpa [hf] using ih
    | some b => simpa [hf] using ih

lemma dictBump_sum (m : List (String × ℕ)) (k : String) :
    ((dictBump m k).map Prod.snd).sum = (m.map Prod.snd).sum + 1 := by
  induction m with
  | nil => simp [dictBump]
  | cons p rest ih =>
    obtain ⟨k0, v⟩ := p
    unfold dictBump
    by_cases hk : k0 = k
    · simp [hk]
      omega
    · simp [hk, ih]
      omega

lemma dictBump_keys (m : List (String × ℕ)) (k : String) (P : String → Prop)
    (hm : ∀ kv ∈ m, P kv.1) (hk : P k) :
    ∀ kv ∈ dictBump m k, P kv.1 := by
  induction m with
  | nil =>
    intro kv hkv
    simp [dictBump] at hkv
    subst hkv
    exact hk
  | cons p rest ih =>
    obtain ⟨k0, v⟩ := p
    intro kv hkv
    unfold dictBump at hkv
    by_cases h0 : k0 = k
    · rw [if_pos h0] at hkv
      rcases List.mem_cons.mp hkv with h | h
      · subst h; exact hm (k0, v) (by simp)
      · exact hm kv (by simp [h])
    · rw [if_neg h0] at hkv
      rcases List.mem_cons.mp hkv with h | h
      · subst h; exact hm (k0, v) (by simp)
      · exact ih (fun kv2 h2 => hm kv2 (by simp [h2])) kv h

lemma dictFold_sum (causes : List String) (m : List (String × ℕ)) :
    (((causes.foldl dictBump m).map Prod.snd).sum) =
      (m.map Prod.snd).sum + causes.length := by
  induction causes generalizing m with
  | nil => simp
  | cons c cs ih =>
    rw [List.foldl_cons, ih, dictBump_sum, List.length_cons]
    omega

lemma dictFold_keys (causes : List String) (m : List (String × ℕ))
    (P : String → Prop) (hm : ∀ kv ∈ m, P kv.1) (hc : ∀ c ∈ causes, P c) :
    ∀ kv ∈ causes.foldl dictBump m, P kv.1 := by
  induction causes generalizing m with
  | nil => simpa using hm
  | cons c cs ih =>
    rw [List.foldl_cons]
    exact ih (dictBump m c) (dictBump_keys m c P hm (hc c (by simp)))
      (fun c2 h2 => hc c2 (by simp [h2]))

lemma ppr_sum_exclude (R : List Race)
    (h : ∀ race ∈ R, raceIsDnf race = true → racePoints race = 0) :
    (R.filterMap (pprConsidered true)).sum = (R.filterMap (pprConsidered false)).sum := by
  induction R with
  | nil => rfl
  | cons r R ih =>
    have hr := h r (by simp)
    have hR : ∀ race ∈ R, raceIsDnf race = true → racePoints race = 0 :=
      fun race hm => h race (by simp [hm])
    rw [List.filterMap_cons, List.filterMap_cons]
    cases hh : r.results.head? with
    | none => simp [pprConsidered, hh, ih hR]
    | some result =>
      by_cases hd : is_dnf (result.status.getD "Finished")
      · have hp : racePoints r = 0 := hr (by simp [raceIsDnf, hh, hd])
        have hp2 : safe_float (some (result.points.getD "0")) 0 = 0 := by
          simpa [racePoints, hh] using hp
        simp [pprConsidered, hh, hd, hp2, ih hR]
      · simp [pprConsidered, hh, hd, ih hR]

/-- C1 (amended): excludeDnf leaves totalPoints unchanged provided every
DNF race carries zero parsed points; in general the flag removes DNF races
from the sum as well as from the count. -/
theorem points_per_race_total_points_eq_of_zero_dnf_points (R : List Race)
    (h : ∀ race ∈ R, raceIsDnf race = true → racePoints race = 0) :
    (calculate_analytics_points_per_race R true).total_points =
      (calculate_analytics_points_per_race R false).total_points := by
  unfold calculate_analytics_points_per_race
  by_cases hR : R = []
  · simp [hR]
  · rw [if_neg hR, if_neg hR]
    simp only
    rw [ppr_sum_exclude R h]

lemma dnfScoring_filterMap_false :
    dnfScoringRaces.filterMap (pprConsidered false) = [1] := by
  simp [dnfScoringRaces, pprConsidered, safe_float, pyFloat?, trimChars, parseDigits,
    digitVal, isSpaceChar, is_dnf, dnf_statuses]

lemma dnfScoring_filterMap_true :
    dnfScoringRaces.filterMap (pprConsidered true) = [] := by
  simp [dnfScoringRaces, pprConsidered, safe_float, pyFloat?, trimChars, parseDigits,
    digitVal, isSpaceChar, is_dnf, dnf_statuses]

/-- C1 (counterexample): a single Engine-DNF race scoring one point gives
totalPoints 1.0 with excludeDnf = false and 0.0 with excludeDnf = true, so
totalPoints is not unaffected by excludeDnf. -/
theorem points_per_race_total_points_excludeDnf_counterexample :
    (calculate_analytics_points_per_race dnfScoringRaces false).total_points ≠
      (calculate_analytics_points_per_race dnfScoringRaces true).total_points := by
  unfold calculate_analytics_points_per_race
  rw [if_neg (by simp [dnfScoringRaces]), if_neg (by simp [dnfScoringRaces])]
  simp only [dnfScoring_filterMap_false, dnfScoring_filterMap_true]
  norm_num [pyRound, roundHalfEvenQ]

lemma zeroPointDnf_hyp :
    ∀ race ∈ zeroPointDnfRaces, raceIsDnf race = true → racePoints race = 0 := by
  simp only [zeroPointDnfRaces, List.forall_mem_cons, List.forall_mem_nil]
  refine ⟨?_, ?_, ?_, ?_, ?_, ?_, ?_⟩ <;>
    simp [raceIsDnf, racePoints, is_dnf, dnf_statuses, safe_float, pyFloat?,
      trimChars, parseDigits, digitVal, isSpaceChar]

/-- C1 (witness): the six-race specification fixture, whose only DNF race
scores zero points, satisfies the hypothesis and both totals agree. -/
theorem points_per_race_total_points_eq_witness :
    (∀ race ∈ zeroPointDnfRaces, raceIsDnf race = true → racePoints race = 0) ∧
      (calculate_analytics_points_per_race zeroPointDnfRaces true).total_points =
        (calculate_analytics_points_per_race zeroPointDnfRaces false).total_points :=
  ⟨zeroPointDnf_hyp,
    points_per_race_total_points_eq_of_zero_dnf_points zeroPointDnfRaces zeroPointDnf_hyp⟩

/-- C2 (amended): the consistency scorer includes a race in its
completed-race set (with position p) precisely when the status of the
first result entry is not a DNF and the position parses to a positive
integer p; the literal status Finished is not required. -/
theorem consistency_completed_race_iff (race : Race) (p : Int) :
    completedPosition? race = some p ↔
      ∃ result, race.results.head? = some result ∧
        is_dnf (result.status.getD "") = false ∧
        safe_int_of_str (result.position.getD "R") = some p ∧ 0 < p := by
  cases hh : race.results.head? with
  | none => simp [completedPosition?, hh]
  | some result =>
    simp only [completedPosition?, hh, Option.some.injEq]
    constructor
    · intro h
      by_cases hc : ¬ is_dnf (result.status.getD "") = true ∧ result.position.getD "R" ≠ "R"
      · rw [if_pos hc] at h
        cases hs : safe_int_of_str (result.position.getD "R") with
        | none => rw [hs] at h; exact absurd h (by simp)
        | some q =>
          rw [hs] at h
          have h2 : (if 0 < q then some q else none) = some p := h
          by_cases h0 : 0 < q
          · rw [if_pos h0] at h2
            obtain rfl : q = p := by simpa using h2
            exact ⟨result, rfl, by simpa using hc.1, hs, h0⟩
          · rw [if_neg h0] at h2
            exact absurd h2 (by simp)
      · rw [if_neg hc] at h
        exact absurd h (by simp)
    · rintro ⟨result2, hres, hdnf, hs, hp⟩
      subst hres
      have hcond : ¬ is_dnf (result.status.getD "") = true ∧
          result.position.getD "R" ≠ "R" := by
        refine ⟨by simp [hdnf], ?_⟩
        intro he
        rw [he] at hs
        simp [safe_int_of_str] at hs
      rw [if_pos hcond, hs]
      show (if 0 < p then some p else none) = some p
      rw [if_pos hp]

lemma completed_lappedRace : completedPosition? lappedRace = some 5 := by
  simp [completedPosition?, lappedRace, is_dnf, dnf_statuses, safe_int_of_str,
    pyInt?, trimChars, parseDigits, digitVal, isSpaceChar]

/-- C2 (counterexample): a race with the non-DNF status Lapped and
position 5 is included in the completed-race set although its status is
not the literal string Finished, refuting the only-if direction of the
claim. -/
theorem consistency_completed_not_only_finished :
    completedPosition? lappedRace = some 5 ∧
      specC2completedPosition? lappedRace = none := by
  refine ⟨completed_lappedRace, ?_⟩
  simp [specC2completedPosition?, lappedRace]

/-- C3 (amended): a race is kept as a valid data point precisely when grid
and position are present (truthy) and parse to integers — positivity is
not required — and the status is not a DNF; a race increments the
missing-data counter precisely when grid or position is falsy, or when
both are truthy, the status is not a DNF and a parse fails; DNF races with
parseable values are skipped without incrementing the counter. -/
theorem qrc_valid_point_iff (race : Race) :
    (∀ pt, qrcClassify race = QRCOutcome.valid pt ↔
      ∃ result, race.results.head? = some result ∧
        truthy result.grid = true ∧ truthy result.position = true ∧
        is_dnf (result.status.getD "Finished") = false ∧
        safe_int? result.grid = some pt.grid ∧
        safe_int? result.position = some pt.finish ∧
        pt.race_name = race.raceName.getD "Unknown") ∧
    (qrcClassify race = QRCOutcome.missing ↔
      ∃ result, race.results.head? = some result ∧
        ((truthy result.grid = false ∨ truthy result.position = false) ∨
          (truthy result.grid = true ∧ truthy result.position = true ∧
            is_dnf (result.status.getD "Finished") = false ∧
            (safe_int? result.grid = none ∨ safe_int? result.position = none)))) := by
  cases hh : race.results.head? with
  | none =>
    constructor
    · intro pt; simp [qrcClassify, hh]
    · simp [qrcClassify, hh]
  | some result =>
    cases htg : truthy result.grid with
    | false =>
      constructor
      · intro pt; simp [qrcClassify, hh, htg]
      · simp [qrcClassify, hh, htg]
    | true =>
      cases htp : truthy result.position with
      | false =>
        constructor
        · intro pt; simp [qrcClassify, hh, htg, htp]
        · simp [qrcClassify, hh, htg, htp]
      | true =>
        cases hdnf : is_dnf (result.status.getD "Finished") with
        | true =>
          constructor
          · intro pt; simp [qrcClassify, hh, htg, htp, hdnf]
          · simp [qrcClassify, hh, htg, htp, hdnf]
        | false =>
          cases hg : safe_int? result.grid with
          | none =>
            constructor
            · intro pt; simp [qrcClassify, hh, htg, htp, hdnf, hg]
            · simp [qrcClassify, hh, htg, htp, hdnf, hg]
          | some g =>
            cases hp : safe_int? result.position with
            | none =>
              constructor
              · intro pt; simp [qrcClassify, hh, htg, htp, hdnf, hg, hp]
              · simp [qrcClassify, hh, htg, htp, hdnf, hg, hp]
            | some p =>
              constructor
              · intro pt
                obtain ⟨g0, p0, n0⟩ := pt
                simp [qrcClassify, hh, htg, htp, hdnf, hg, hp, QRCOutcome.valid.injEq,
                  ScatterPoint.mk.injEq]
                intro _ _
                exact eq_comm
              · simp [qrcClassify, hh, htg, htp, hdnf, hg, hp]

lemma qrc_pitLaneRace_valid :
    qrcClassify pitLaneRace = QRCOutcome.valid { grid := 0, finish := 5, race_name := "P" } := by
  simp [qrcClassify, pitLaneRace, truthy, is_dnf, dnf_statuses, safe_int?,
    safe_int_of_str, pyInt?, trimChars, parseDigits, digitVal, isSpaceChar]

/-- C3 (counterexample): a Finished race with grid 0 and position 5 is
kept as a valid data point although its grid does not parse to a positive
integer, refuting the only-if direction of the claim. -/
theorem qrc_valid_point_positivity_counterexample :
    qrcClassify pitLaneRace =
      QRCOutcome.valid { grid := 0, finish := 5, race_name := "P" } ∧
      specC3valid pitLaneRace = false := by
  refine ⟨qrc_pitLaneRace_valid, ?_⟩
  simp [specC3valid, pitLaneRace, truthy, is_dnf, dnf_statuses, safe_int?,
    safe_int_of_str, pyInt?, trimChars, parseDigits, digitVal, isSpaceChar]

lemma trends_eq_filterMap (R : List Race) (metric : String) :
    calculate_analytics_performance_trends R metric =
      R.filterMap (trendPoint? metric) := by
  cases R <;> simp [calculate_analytics_performance_trends]

/-- C4: on inputs whose races each carry at least one result entry (the
shape guaranteed by the data model), the trend extractor produces exactly
one point per input race, in input order, carrying the race name, date,
parsed round number and metric value of that race; empty input yields the
empty sequence. -/
theorem performance_trends_one_point_per_race (R : List Race) (metric : String)
    (h : ∀ race ∈ R, race.results ≠ []) :
    calculate_analytics_performance_trends R metric =
      R.map (fun race =>
        { race_name := race.raceName.getD "Unknown"
          race_date := race.date.getD ""
          round := raceRound race
          metric_value := metricValue metric race.results.headI }) ∧
    (calculate_analytics_performance_trends R metric).length = R.length := by
  have heq : calculate_analytics_performance_trends R metric =
      R.map (fun race =>
        { race_name := race.raceName.getD "Unknown"
          race_date := race.date.getD ""
          round := raceRound race
          metric_value := metricValue metric race.results.headI }) := by
    rw [trends_eq_filterMap]
    induction R with
    | nil => simp
    | cons r R ih =>
      have hr : r.results ≠ [] := h r (by simp)
      rw [List.filterMap_cons, List.map_cons]
      cases hres : r.results with
      | nil => exact absurd hres hr
      | cons e rest =>
        have hhead : r.results.head? = some e := by rw [hres]; rfl
        have hheadI : r.results.headI = e := by rw [hres]; rfl
        have hR : ∀ race ∈ R, race.results ≠ [] := fun race hm => h race (by simp [hm])
        simp [trendPoint?, hhead, hheadI, ih hR]
  exact ⟨heq, by rw [heq, List.length_map]⟩

/-- C4 (witness): a concrete two-race input with one result entry each. -/
theorem performance_trends_one_point_per_race_witness :
    (∀ race ∈ twoPlainRaces, race.results ≠ []) ∧
      (calculate_analytics_performance_trends twoPlainRaces "position").length =
        twoPlainRaces.length :=
  ⟨by simp [twoPlainRaces],
    (performance_trends_one_point_per_race twoPlainRaces "position"
      (by simp [twoPlainRaces])).2⟩

lemma trendPoint?_isSome (metric : String) (r : Race) :
    (trendPoint? metric r).isSome = !r.results.isEmpty := by
  cases hres : r.results <;> simp [trendPoint?, hres]

lemma pprConsidered_false_isSome (r : Race) :
    (pprConsidered false r).isSome = !r.results.isEmpty := by
  cases hres : r.results <;> simp [pprConsidered, hres]

lemma raceDnfCause?_isSome (r : Race) :
    (raceDnfCause? r).isSome = raceIsDnf r := by
  cases hres : r.results with
  | nil => simp [raceDnfCause?, raceIsDnf, hres]
  | cons e rest =>
    cases hd : is_dnf (e.status.getD "Finished") <;>
      simp [raceDnfCause?, raceIsDnf, hres, hd]

/-- C10: a race with an empty result-entry list is dropped by the trend
extractor and by the scoring aggregator (even with excludeDnf = false),
yet the reliability analyzer counts it in totalRaces and can never
classify it as a DNF, so the per-function race counts for one and the
same input differ. -/
theorem analytics_disagree_on_empty_results (R : List Race) (race : Race)
    (hmem : race ∈ R) (hempty : race.results = []) :
    (∀ metric, (calculate_analytics_performance_trends R metric).length =
        R.countP (fun r => !r.results.isEmpty)) ∧
      (calculate_analytics_points_per_race R false).races_counted =
        R.countP (fun r => !r.results.isEmpty) ∧
      R.countP (fun r => !r.results.isEmpty) < R.length ∧
      (calculate_analytics_dnf_rate R).total_races = R.length ∧
      (calculate_analytics_dnf_rate R).dnf_count = R.countP raceIsDnf ∧
      raceIsDnf race = false ∧
      (calculate_analytics_points_per_race R false).races_counted <
        (calculate_analytics_dnf_rate R).total_races := by
  have hR : R ≠ [] := List.ne_nil_of_mem hmem
  have hfun1 : (fun r => (trendPoint? "x" r).isSome) = (fun r : Race => !r.results.isEmpty) :=
    funext (trendPoint?_isSome "x")
  have hcount_lt : R.countP (fun r => !r.results.isEmpty) < R.length := by
    refine lt_of_le_of_ne (List.countP_le_length _) ?_
    intro hc
    have hall := List.countP_eq_length.mp hc race hmem
    rw [hempty] at hall
    simp at hall
  have htrends : ∀ metric, (calculate_analytics_performance_trends R metric).length =
      R.countP (fun r => !r.results.isEmpty) := by
    intro metric
    rw [trends_eq_filterMap, length_filterMap_eq_countP]
    exact congrArg (fun p => R.countP p) (funext (trendPoint?_isSome metric))
  have hppr : (calculate_analytics_points_per_race R false).races_counted =
      R.countP (fun r => !r.results.isEmpty) := by
    unfold calculate_analytics_points_per_race
    rw [if_neg hR]
    show (R.filterMap (pprConsidered false)).length = _
    rw [length_filterMap_eq_countP]
    exact congrArg (fun p => R.countP p) (funext pprConsidered_false_isSome)
  have hdnf_total : (calculate_analytics_dnf_rate R).total_races = R.length := by
    unfold calculate_analytics_dnf_rate
    rw [if_neg hR]
  have hdnf_count : (calculate_analytics_dnf_rate R).dnf_count = R.countP raceIsDnf := by
    unfold calculate_analytics_dnf_rate
    rw [if_neg hR]
    show (R.filterMap raceDnfCause?).length = _
    rw [length_filterMap_eq_countP]
    exact congrArg (fun p => R.countP p) (funext raceDnfCause?_isSome)
  refine ⟨htrends, hppr, hcount_lt, hdnf_total, hdnf_count, ?_, ?_⟩
  · simp [raceIsDnf, hempty]
  · rw [hppr, hdnf_total]
    exact hcount_lt

/-- C10 (witness): an input holding one race with an empty Results list
and one ordinary race. -/
theorem analytics_disagree_on_empty_results_witness :
    (emptyResultsRace ∈ mixedEmptyRaces ∧ emptyResultsRace.results = []) ∧
      (calculate_analytics_points_per_race mixedEmptyRaces false).races_counted <
        (calculate_analytics_dnf_rate mixedEmptyRaces).total_races :=
  ⟨⟨by simp [mixedEmptyRaces], rfl⟩,
    (analytics_disagree_on_empty_results mixedEmptyRaces emptyResultsRace
      (by simp [mixedEmptyRaces]) rfl).2.2.2.2.2.2⟩

lemma raceDnfCause?_mem (r : Race) (c : String) (h : raceDnfCause? r = some c) :
    c = "Mechanical" ∨ c = "Accident" ∨ c = "Other" := by
  unfold raceDnfCause? at h
  cases hh : r.results.head? with
  | none => rw [hh] at h; exact absurd h (by simp)
  | some e =>
    rw [hh] at h
    have h2 : (if is_dnf (e.status.getD "Finished") then
        some
          (if mechanicalCauses.contains (e.status.getD "Finished") then "Mechanical"
           else if accidentCauses.contains (e.status.getD "Finished") then "Accident"
           else "Other")
        else none) = some c := h
    by_cases hd : is_dnf (e.status.getD "Finished")
    · rw [if_pos hd] at h2
      by_cases hm : (e.status.getD "Finished") ∈ mechanicalCauses
      · left; simpa [hm] using h2.symm
      · by_cases ha : (e.status.getD "Finished") ∈ accidentCauses
        · right; left; simpa [hm, ha] using h2.symm
        · right; right; simpa [hm, ha] using h2.symm
    · rw [if_neg hd] at h2
      exact absurd h2 (by simp)

/-- C9: the DNF percentage equals safeDivide(dnfCount x 100, totalRaces)
rounded to one decimal with dnfCount the number of DNF races, the
cause-bucket counts sum to dnfCount, every bucket key is Mechanical,
Accident or Other, and empty input yields the all-zero report with an
empty mapping. -/
theorem dnf_rate_spec (R : List Race) :
    (calculate_analytics_dnf_rate R).dnf_count = R.countP raceIsDnf ∧
      (calculate_analytics_dnf_rate R).dnf_percentage =
        pyRound (safe_divide ((R.countP raceIsDnf : ℚ) * 100) R.length 0) 1 ∧
      (((calculate_analytics_dnf_rate R).dnf_causes.map Prod.snd).sum =
        (calculate_analytics_dnf_rate R).dnf_count) ∧
      (∀ kv ∈ (calculate_analytics_dnf_rate R).dnf_causes,
        kv.1 = "Mechanical" ∨ kv.1 = "Accident" ∨ kv.1 = "Other") ∧
      (R = [] → calculate_analytics_dnf_rate R =
        { dnf_percentage := 0, dnf_count := 0, total_races := 0, dnf_causes := [] }) := by
  by_cases hR : R = []
  · subst hR
    refine ⟨by simp [calculate_analytics_dnf_rate], ?_, by simp [calculate_analytics_dnf_rate], ?_, ?_⟩
    · show (0 : ℚ) = pyRound (safe_divide ((0 : ℚ) * 100) 0 0) 1
      norm_num [pyRound, roundHalfEvenQ, safe_divide]
    · intro kv hkv
      simp [calculate_analytics_dnf_rate] at hkv
    · intro _; rfl
  · have hcnt : (R.filterMap raceDnfCause?).length = R.countP raceIsDnf := by
      rw [length_filterMap_eq_countP]
      exact congrArg (fun p => R.countP p) (funext raceDnfCause?_isSome)
    unfold calculate_analytics_dnf_rate
    rw [if_neg hR]
    refine ⟨hcnt, by rw [hcnt], ?_, ?_, fun he => absurd he hR⟩
    · show (((R.filterMap raceDnfCause?).foldl dictBump []).map Prod.snd).sum =
        (R.filterMap raceDnfCause?).length
      rw [dictFold_sum]
      simp
    · intro kv hkv
      refine dictFold_keys (R.filterMap raceDnfCause?) []
        (fun k => k = "Mechanical" ∨ k = "Accident" ∨ k = "Other") (by simp) ?_ kv hkv
      intro c hc
      obtain ⟨r, _, hr⟩ := List.mem_filterMap.mp hc
      exact raceDnfCause?_mem r c hr

/-- C9 (witness): one Engine DNF next to one finished race. -/
theorem dnf_rate_spec_witness :
    (calculate_analytics_dnf_rate oneDnfOneFinishRaces).dnf_count =
        oneDnfOneFinishRaces.countP raceIsDnf ∧
      (((calculate_analytics_dnf_rate oneDnfOneFinishRaces).dnf_causes.map Prod.snd).sum =
        (calculate_analytics_dnf_rate oneDnfOneFinishRaces).dnf_count) :=
  ⟨(dnf_rate_spec oneDnfOneFinishRaces).1, (dnf_rate_spec oneDnfOneFinishRaces).2.2.1⟩

/-- C8: the trend direction of the form indicator is determined by the
least-squares slope through the 0.3 threshold (stable when the absolute
slope is below 0.3, improving for smaller negative slopes, declining for
larger positive slopes); with fewer than two kept positions the slope is
0 and the direction stable; and racesAnalyzed never exceeds
min(nRaces, len(R)). -/
theorem form_indicator_spec (R : List Race) (n : ℕ) (res : FormIndicator)
    (h : calculate_analytics_form_indicator R n = some res) :
    (|formSlope R n| < 3 / 10 → res.trend_direction = "stable") ∧
      (¬ |formSlope R n| < 3 / 10 → formSlope R n < 0 →
        res.trend_direction = "improving") ∧
      (¬ |formSlope R n| < 3 / 10 → 0 < formSlope R n →
        res.trend_direction = "declining") ∧
      ((formKept R n).length < 2 → formSlope R n = 0 ∧ res.trend_direction = "stable") ∧
      res.races_analyzed ≤ min n R.length ∧
      res.trend_slope = pyRound (formSlope R n) 3 := by
  unfold calculate_analytics_form_indicator at h
  by_cases hR : R = []
  · rw [if_pos hR] at h; exact absurd h (by simp)
  rw [if_neg hR] at h
  by_cases hpos : (formKept R n).map Prod.fst = []
  · rw [if_pos hpos] at h; exact absurd h (by simp)
  rw [if_neg hpos] at h
  obtain rfl := Option.some.inj h
  have hlenmap : ((formKept R n).map Prod.fst).length = (formKept R n).length :=
    List.length_map _ _
  refine ⟨?_, ?_, ?_, ?_, ?_, rfl⟩
  · intro hs
    show formDirection R n = "stable"
    unfold formDirection
    by_cases h2 : 2 ≤ ((formKept R n).map Prod.fst).length
    · rw [if_pos h2, if_pos hs]
    · rw [if_neg h2]
  · intro hns hneg
    have h2 : 2 ≤ ((formKept R n).map Prod.fst).length := by
      by_contra hn2
      have hz : formSlope R n = 0 := by unfold formSlope; rw [if_neg hn2]
      rw [hz] at hns
      exact hns (by norm_num)
    show formDirection R n = "improving"
    unfold formDirection
    rw [if_pos h2, if_neg hns, if_pos hneg]
  · intro hns hposl
    have h2 : 2 ≤ ((formKept R n).map Prod.fst).length := by
      by_contra hn2
      have hz : formSlope R n = 0 := by unfold formSlope; rw [if_neg hn2]
      rw [hz] at hns
      exact hns (by norm_num)
    show formDirection R n = "declining"
    unfold formDirection
    rw [if_pos h2, if_neg hns, if_neg (not_lt.mpr (le_of_lt hposl))]
  · intro hlt
    have hn2 : ¬ 2 ≤ ((formKept R n).map Prod.fst).length := by
      rw [hlenmap]; omega
    constructor
    · unfold formSlope; rw [if_neg hn2]
    · show formDirection R n = "stable"
      unfold formDirection
      rw [if_neg hn2]
  · show (formKept R n).length ≤ min n R.length
    calc (formKept R n).length ≤ (R.take n).length := List.length_filterMap_le _ _
      _ = min n R.length := List.length_take n R

lemma formKept_improving :
    formKept improvingFormRaces 5 = [(6, 8), (5, 10), (4, 12), (3, 15), (2, 18)] := by
  simp [formKept, formKept?, improvingFormRaces, truthy, is_dnf, dnf_statuses,
    safe_int?, safe_int_of_str, pyInt?, safe_float, pyFloat?, trimChars, parseDigits,
    digitVal, isSpaceChar]

lemma formSlope_improving : formSlope improvingFormRaces 5 = -1 := by
  unfold formSlope
  rw [formKept_improving]
  norm_num [olsSlope, List.range_succ]

lemma form_indicator_improving_eval :
    calculate_analytics_form_indicator improvingFormRaces 5 = some improvingFormResult := by
  unfold calculate_analytics_form_indicator
  rw [if_neg (by simp [improvingFormRaces])]
  rw [if_neg (by rw [formKept_improving]; simp)]
  unfold formDirection
  rw [formKept_improving, formSlope_improving]
  norm_num [improvingFormResult, pyRound, roundHalfEvenQ]

/-- C8 (witness): five finished races with positions 6, 5, 4, 3, 2 give
slope -1 and direction improving. -/
theorem form_indicator_spec_witness :
    calculate_analytics_form_indicator improvingFormRaces 5 = some improvingFormResult ∧
      improvingFormResult.trend_direction = "improving" :=
  ⟨form_indicator_improving_eval,
    (form_indicator_spec improvingFormRaces 5 improvingFormResult
        form_indicator_improving_eval).2.1
      (by rw [formSlope_improving]; norm_num)
      (by rw [formSlope_improving]; norm_num)⟩

/-- C7: the consistency scorer returns absent exactly when the
completed-race count is below minRaces (for any positive minRaces);
otherwise the score equals max(0, 100 - stdDev x 10) rounded to one
decimal, is exactly 100 when the standard deviation is 0, exactly 0 when
it is at least 10, and always lies in [0, 100]. -/
theorem consistency_score_spec (R : List Race) (min_races : ℕ)
    (hmin : 1 ≤ min_races) :
    (calculate_analytics_consistency_score R min_races = none ↔
      (completedPositions R).length < min_races) ∧
      (∀ res, calculate_analytics_consistency_score R min_races = some res →
        res.consistency_score =
          pyRoundR (max 0 (100 - listStd (completedPositions R) * 10)) 1 ∧
        (listStd (completedPositions R) = 0 → res.consistency_score = 100) ∧
        ((10 : ℝ) ≤ listStd (completedPositions R) → res.consistency_score = 0) ∧
        0 ≤ res.consistency_score ∧ res.consistency_score ≤ 100) := by
  unfold calculate_analytics_consistency_score
  constructor
  · by_cases hR : R = []
    · subst hR
      simp [completedPositions]
      omega
    · rw [if_neg hR]
      by_cases hlen : (completedPositions R).length < min_races
      · rw [if_pos hlen]; simp [hlen]
      · rw [if_neg hlen]; simp [hlen]
  · intro res hres
    by_cases hR : R = []
    · subst hR; rw [if_pos rfl] at hres; exact absurd hres (by simp)
    rw [if_neg hR] at hres
    by_cases hlen : (completedPositions R).length < min_races
    · rw [if_pos hlen] at hres; exact absurd hres (by simp)
    rw [if_neg hlen] at hres
    obtain rfl := Option.some.inj hres
    have hs0 : 0 ≤ listStd (completedPositions R) := listStd_nonneg _
    have hv_le : max 0 (100 - listStd (completedPositions R) * 10) ≤ ((100 : ℤ) : ℝ) := by
      apply max_le
      · norm_num
      · push_cast; nlinarith

    refine ⟨rfl, ?_, ?_, ?_, ?_⟩
    · intro hz
      show pyRoundR (max 0 (100 - listStd (completedPositions R) * 10)) 1 = 100
      rw [hz]
      have h1 : ((100 : ℝ) - 0 * 10) = ((100 : ℤ) : ℝ) := by norm_num
      rw [h1, max_eq_right (by norm_num : (0 : ℝ) ≤ ((100 : ℤ) : ℝ))]
      rw [pyRoundR_intCast]
      norm_num
    · intro h10
      show pyRoundR (max 0 (100 - listStd (completedPositions R) * 10)) 1 = 0
      have h1 : max (0 : ℝ) (100 - listStd (completedPositions R) * 10) = ((0 : ℤ) : ℝ) := by
        rw [max_eq_left (by nlinarith)]
        norm_num
      rw [h1, pyRoundR_intCast]
      norm_num
    · exact pyRoundR_nonneg (le_max_left _ _) 1
    · have := pyRoundR_le hv_le 1
      show pyRoundR (max 0 (100 - listStd (completedPositions R) * 10)) 1 ≤ 100
      calc pyRoundR (max 0 (100 - listStd (completedPositions R) * 10)) 1
          ≤ ((100 : ℤ) : ℝ) := this
        _ = 100 := by norm_num

lemma completed_identical :
    completedPositions identicalPositionRaces = [3, 3, 3, 3, 3, 3, 3] := by
  simp [completedPositions, completedPosition?, identicalPositionRaces, is_dnf,
    dnf_statuses, safe_int_of_str, pyInt?, trimChars, parseDigits, digitVal, isSpaceChar]

lemma listStd_identical : listStd (completedPositions identicalPositionRaces) = 0 := by
  rw [completed_identical]
  have hv : listVar [3, 3, 3, 3, 3, 3, 3] = 0 := by
    norm_num [listVar, listMean]
  unfold listStd
  rw [hv]
  simp

/-- C7 (witness): seven identical third places give deviation 0 and a
consistency score of exactly 100 against minRaces = 5. -/
theorem consistency_score_spec_witness :
    (calculate_analytics_consistency_score identicalPositionRaces 5 = none ↔
      (completedPositions identicalPositionRaces).length < 5) ∧
      (∀ res, calculate_analytics_consistency_score identicalPositionRaces 5 = some res →
        res.consistency_score = 100) := by
  have h := consistency_score_spec identicalPositionRaces 5 (by norm_num)
  exact ⟨h.1, fun res hres => ((h.2 res hres).2.1) listStd_identical⟩

/-- C6: the correlation analyzer returns absent exactly for empty input;
for any returned result the insufficientData flag is set exactly when the
valid-point count is below minRaces, the scatter list always has length
equal to racesAnalyzed (the valid-point count), and the missing-data
count is carried along. -/
theorem qrc_result_shape (R : List Race) (min_races : ℕ) :
    (calculate_analytics_qualifying_race_correlation R min_races = none ↔ R = []) ∧
      (∀ res, calculate_analytics_qualifying_race_correlation R min_races = some res →
        (res.insufficient_data = true ↔ (qrcScatter R).length < min_races) ∧
          res.scatter_data.length = res.races_analyzed ∧
          res.races_analyzed = (qrcScatter R).length ∧
          res.missing_data_count = qrcMissingCount R) := by
  unfold calculate_analytics_qualifying_race_correlation
  have hlm : ((qrcScatter R).map ScatterPoint.grid).length = (qrcScatter R).length :=
    List.length_map _ _
  constructor
  · by_cases hR : R = []
    · simp [hR]
    · rw [if_neg hR]
      by_cases hlt : ((qrcScatter R).map ScatterPoint.grid).length < min_races
      · rw [if_pos hlt]; simp [hR]
      · rw [if_neg hlt]; simp [hR]
  · intro res hres
    by_cases hR : R = []
    · rw [if_pos hR] at hres; exact absurd hres (by simp)
    rw [if_neg hR] at hres
    by_cases hlt : ((qrcScatter R).map ScatterPoint.grid).length < min_races
    · rw [if_pos hlt] at hres
      obtain rfl := Option.some.inj hres
      rw [hlm] at hlt
      exact ⟨by simp [hlt], hlm.symm, hlm, rfl⟩
    · rw [if_neg hlt] at hres
      obtain rfl := Option.some.inj hres
      rw [hlm] at hlt
      exact ⟨by simp [hlt], hlm.symm, hlm, rfl⟩

lemma qrcScatter_singleValid :
    qrcScatter singleValidRace = [{ grid := 6, finish := 2, race_name := "S" }] := by
  simp [qrcScatter, qrcClassify, singleValidRace, truthy, is_dnf, dnf_statuses,
    safe_int?, safe_int_of_str, pyInt?, trimChars, parseDigits, digitVal, isSpaceChar]

/-- C6 (witness): a single valid race against minRaces = 5 yields a
populated result flagged insufficient, with one scatter point. -/
theorem qrc_result_shape_witness :
    calculate_analytics_qualifying_race_correlation singleValidRace 5 ≠ none ∧
      (∀ res,
        calculate_analytics_qualifying_race_correlation singleValidRace 5 = some res →
        res.insufficient_data = true ∧ res.scatter_data.length = res.races_analyzed) := by
  have h := qrc_result_shape singleValidRace 5
  constructor
  · intro hn
    have he := h.1.mp hn
    simp [singleValidRace] at he
  · intro res hres
    have h2 := h.2 res hres
    refine ⟨h2.1.mpr ?_, h2.2.1⟩
    rw [qrcScatter_singleValid]
    norm_num

/-- C5: once at least minRaces valid points exist, a zero-variance grid
or finish series makes the coefficient absent and the classification
insufficient data; with both variances nonzero the classification follows
the thresholds on the Pearson coefficient: below -0.3 strong race
performer, above 0.7 qualifying-dependent performer, otherwise balanced
performer. -/
theorem qrc_classification_spec (R : List Race) (min_races : ℕ)
    (hR : R ≠ []) (hmin : min_races ≤ (qrcScatter R).length) :
    ∃ res, calculate_analytics_qualifying_race_correlation R min_races = some res ∧
      ((listVar ((qrcScatter R).map ScatterPoint.grid) = 0 ∨
        listVar ((qrcScatter R).map ScatterPoint.finish) = 0) →
        res.correlation_coefficient = none ∧
          res.classification = "insufficient data") ∧
      (listVar ((qrcScatter R).map ScatterPoint.grid) ≠ 0 →
        listVar ((qrcScatter R).map ScatterPoint.finish) ≠ 0 →
        (pearson ((qrcScatter R).map ScatterPoint.grid)
              ((qrcScatter R).map ScatterPoint.finish) < -(0.3 : ℝ) →
            res.classification = "strong race performer") ∧
          (¬ pearson ((qrcScatter R).map ScatterPoint.grid)
              ((qrcScatter R).map ScatterPoint.finish) < -(0.3 : ℝ) →
            (0.7 : ℝ) < pearson ((qrcScatter R).map ScatterPoint.grid)
              ((qrcScatter R).map ScatterPoint.finish) →
            res.classification = "qualifying-dependent performer") ∧
          (¬ pearson ((qrcScatter R).map ScatterPoint.grid)
              ((qrcScatter R).map ScatterPoint.finish) < -(0.3 : ℝ) →
            ¬ (0.7 : ℝ) < pearson ((qrcScatter R).map ScatterPoint.grid)
              ((qrcScatter R).map ScatterPoint.finish) →
            res.classification = "balanced performer")) := by
  have hlm : ((qrcScatter R).map ScatterPoint.grid).length = (qrcScatter R).length :=
    List.length_map _ _
  have hlf : ((qrcScatter R).map ScatterPoint.finish).length = (qrcScatter R).length :=
    List.length_map _ _
  have hnlt : ¬ ((qrcScatter R).map ScatterPoint.grid).length < min_races := by
    rw [hlm]; omega
  unfold calculate_analytics_qualifying_race_correlation
  rw [if_neg hR, if_neg hnlt]
  refine ⟨_, rfl, ?_, ?_⟩
  · intro hvar
    have hsc : safe_correlation ((qrcScatter R).map ScatterPoint.grid)
        ((qrcScatter R).map ScatterPoint.finish) = none := by
      unfold safe_correlation
      by_cases hl : ((qrcScatter R).map ScatterPoint.grid).length < 2 ∨
          ((qrcScatter R).map ScatterPoint.finish).length < 2
      · rw [if_pos hl]
      · rw [if_neg hl, if_neg (by rw [hlm, hlf]; omega)]
        have hstd : listStd ((qrcScatter R).map ScatterPoint.grid) = 0 ∨
            listStd ((qrcScatter R).map ScatterPoint.finish) = 0 := by
          rcases hvar with hv | hv
          · exact Or.inl ((listStd_eq_zero_iff _).mpr hv)
          · exact Or.inr ((listStd_eq_zero_iff _).mpr hv)
        rw [if_pos hstd]
    constructor
    · show (safe_correlation _ _).map (fun c => pyRoundR c 3) = none
      rw [hsc]
      rfl
    · show qrcClassification (safe_correlation _ _) = "insufficient data"
      rw [hsc]
      rfl
  · intro hv1 hv2
    have h2G : 2 ≤ ((qrcScatter R).map ScatterPoint.grid).length :=
      two_le_of_listVar_ne_zero hv1
    have h2F : 2 ≤ ((qrcScatter R).map ScatterPoint.finish).length :=
      two_le_of_listVar_ne_zero hv2
    have hstdG : listStd ((qrcScatter R).map ScatterPoint.grid) ≠ 0 :=
      fun hz => hv1 ((listStd_eq_zero_iff _).mp hz)
    have hstdF : listStd ((qrcScatter R).map ScatterPoint.finish) ≠ 0 :=
      fun hz => hv2 ((listStd_eq_zero_iff _).mp hz)
    have hsc : safe_correlation ((qrcScatter R).map ScatterPoint.grid)
        ((qrcScatter R).map ScatterPoint.finish) =
        some (pearson ((qrcScatter R).map ScatterPoint.grid)
          ((qrcScatter R).map ScatterPoint.finish)) := by
      unfold safe_correlation
      rw [if_neg (by omega), if_neg (by rw [hlm, hlf]; omega),
        if_neg (by push_neg; exact ⟨hstdG, hstdF⟩)]
    refine ⟨?_, ?_, ?_⟩
    · intro hlt
      show qrcClassification (safe_correlation _ _) = "strong race performer"
      rw [hsc]
      show (if pearson ((qrcScatter R).map ScatterPoint.grid)
            ((qrcScatter R).map ScatterPoint.finish) < -(0.3 : ℝ) then
          "strong race performer"
        else if (0.7 : ℝ) < pearson ((qrcScatter R).map ScatterPoint.grid)
            ((qrcScatter R).map ScatterPoint.finish) then
          "qualifying-dependent performer"
        else "balanced performer") = "strong race performer"
      rw [if_pos hlt]
    · intro hnlt2 hgt
      show qrcClassification (safe_correlation _ _) = "qualifying-dependent performer"
      rw [hsc]
      show (if pearson ((qrcScatter R).map ScatterPoint.grid)
            ((qrcScatter R).map ScatterPoint.finish) < -(0.3 : ℝ) then
          "strong race performer"
        else if (0.7 : ℝ) < pearson ((qrcScatter R).map ScatterPoint.grid)
            ((qrcScatter R).map ScatterPoint.finish) then
          "qualifying-dependent performer"
        else "balanced performer") = "qualifying-dependent performer"
      rw [if_neg hnlt2, if_pos hgt]
    · intro hnlt2 hngt
      show qrcClassification (safe_correlation _ _) = "balanced performer"
      rw [hsc]
      show (if pearson ((qrcScatter R).map ScatterPoint.grid)
            ((qrcScatter R).map ScatterPoint.finish) < -(0.3 : ℝ) then
          "strong race performer"
        else if (0.7 : ℝ) < pearson ((qrcScatter R).map ScatterPoint.grid)
            ((qrcScatter R).map ScatterPoint.finish) then
          "qualifying-dependent performer"
        else "balanced performer") = "balanced performer"
      rw [if_neg hnlt2, if_neg hngt]

lemma qrcScatter_constantGrid :
    qrcScatter constantGridRaces =
      [{ grid := 3, finish := 1, race_name := "G1" },
       { grid := 3, finish := 2, race_name := "G2" },
       { grid := 3, finish := 3, race_name := "G3" },
       { grid := 3, finish := 4, race_name := "G4" },
       { grid := 3, finish := 5, race_name := "G5" }] := by
  simp [qrcScatter, qrcClassify, constantGridRaces, truthy, is_dnf, dnf_statuses,
    safe_int?, safe_int_of_str, pyInt?, trimChars, parseDigits, digitVal, isSpaceChar]

/-- C5 (witness): five valid points whose grid series is constant give an
absent coefficient and the classification insufficient data although the
point threshold is met. -/
theorem qrc_classification_spec_witness :
    ∃ res, calculate_analytics_qualifying_race_correlation constantGridRaces 5 = some res ∧
      res.correlation_coefficient = none ∧
      res.classification = "insufficient data" := by
  have hlen : 5 ≤ (qrcScatter constantGridRaces).length := by
    rw [qrcScatter_constantGrid]
    norm_num
  obtain ⟨res, hsome, hzero, _⟩ :=
    qrc_classification_spec constantGridRaces 5 (by simp [constantGridRaces]) hlen
  have hvar0 : listVar ((qrcScatter constantGridRaces).map ScatterPoint.grid) = 0 := by
    rw [qrcScatter_constantGrid]
    norm_num [listVar, listMean]
  exact ⟨res, hsome, (hzero (Or.inl hvar0)).1, (hzero (Or.inl hvar0)).2⟩

end F1
